import Mathlib

/-!
Verification of the KV-transfer connector contract from
`vllm/distributed/kv_transfer/kv_connector/base.py`.

The file under `src/` declares the abstract base class `KVConnectorBase`:
every method body is `raise NotImplementedError`.  The behavioral contract
of the lookup buffer (insert / select / close) and of the connector
(send / recv of KV caches and hidden states) is therefore given only by the
specification; the concrete subclasses are not part of `src/`.

The development has two layers:

* `KVSpec` — an executable model of the Lookup Buffer and Connector,
  modelled from the spec where marked (the implementation is missing from
  `src/`; only the abstract method declarations exist there).
* `KVBase` — a direct embedding of the `KVConnectorBase` methods as they
  appear in the source: each one fails with `NotImplementedError` on every
  input.

Tensors are modelled as lists of integers; the only structure the contract
uses is their sequence-length dimension, which the list length represents.
-/

namespace KVSpec

/-- Token identifiers (`input_tokens` entries are token IDs). -/
abbrev Token := Nat

/-- A tensor, abstracted to its sequence dimension: a list of scalars. -/
abbrev KVTensor := List Int

/-- An entry of the lookup buffer: the key is `(tokens, roi)`, the value is
the triple `(key, value, hidden)` of cache tensors, mirroring the class
docstring of `KVConnectorBase`. -/
structure Entry where
  tokens : List Token
  roi : List Bool
  key : KVTensor
  value : KVTensor
  hidden : KVTensor
deriving Repr, DecidableEq

/-- Error conditions of the buffer, from the spec error taxonomy: only
`BufferClosed` and `ShapeMismatch` are surfaced as hard failures; a cache
miss is an absent result, not an error. -/
inductive BufError where
  | bufferClosed
  | shapeMismatch
deriving Repr, DecidableEq

/-- Modelled from the spec: the Lookup Buffer state (the store of entries,
plus whether `close()` has been called).  The concrete buffer implementation
is missing from `src/`; only the abstract declarations exist there. -/
structure LookupBuffer where
  entries : List Entry
  closed : Bool
deriving Repr, DecidableEq

/-- A fresh, open, empty buffer. -/
def LookupBuffer.empty : LookupBuffer := ⟨[], false⟩

/-- Modelled from the spec: two keys match when their token sequences are
equal over the positions where both roi masks are true (exact equality
restricted to the intersection of the true positions).  Positions beyond
the end of either key cannot have both masks true and so impose nothing. -/
def matchTokens : List Token → List Bool → List Token → List Bool → Bool
  | t1 :: ts1, r1 :: rs1, t2 :: ts2, r2 :: rs2 =>
      (!(r1 && r2) || (t1 == t2)) && matchTokens ts1 rs1 ts2 rs2
  | _, _, _, _ => true

/-- Remove the first entry of `entries` matching the query key, returning it
(or `none`) together with the remaining entries. -/
def findMatch (tokens : List Token) (roi : List Bool) :
    List Entry → Option Entry × List Entry
  | [] => (none, [])
  | e :: rest =>
      if matchTokens tokens roi e.tokens e.roi then (some e, rest)
      else
        let next := findMatch tokens roi rest
        (next.1, e :: next.2)

/-- Modelled from the spec: `insert(tokens, roi, key, value, hidden)` stores
a new entry, visible to subsequent selects; after `close()` it fails with
`BufferClosed`.  The implementation is missing from `src/` (only the
abstract declaration `KVConnectorBase.insert`). -/
def insert (b : LookupBuffer) (tokens : List Token) (roi : List Bool)
    (key value hidden : KVTensor) : Except BufError LookupBuffer :=
  if b.closed then .error .bufferClosed
  else .ok { b with entries := b.entries ++ [⟨tokens, roi, key, value, hidden⟩] }

/-- Modelled from the spec: `select(tokens, roi)` removes and returns the
first matching entry (consumption semantics), returns an absent result on no
match, drains any single entry on the `(None, None)` wildcard, and fails
with `BufferClosed` after `close()`.  The implementation is missing from
`src/` (only the abstract declaration `KVConnectorBase.select`).  A mixed
`None`/non-`None` key is not given a meaning by the spec and is treated as
no match. -/
def select (b : LookupBuffer) (tokens : Option (List Token))
    (roi : Option (List Bool)) : Except BufError (Option Entry × LookupBuffer) :=
  if b.closed then .error .bufferClosed
  else
    match tokens, roi with
    | none, none =>
        match b.entries with
        | [] => .ok (none, b)
        | e :: rest => .ok (some e, { b with entries := rest })
    | some t, some r =>
        let found := findMatch t r b.entries
        .ok (found.1, { b with entries := found.2 })
    | _, _ => .ok (none, b)

/-- Modelled from the spec: `close()` releases buffered entries and marks the
buffer closed; it is idempotent.  The implementation is missing from `src/`
(only the abstract declaration `KVConnectorBase.close`). -/
def close (_b : LookupBuffer) : LookupBuffer := ⟨[], true⟩

/-- Modelled from the spec: a remote-backed `select` waits for the transport
at most a caller-supplied `timeout`; if the transport round-trip takes
longer, the call returns the no-match result instead of blocking.  The
transport-backed implementation is missing from `src/`. -/
def timedSelect (b : LookupBuffer) (tokens : Option (List Token))
    (roi : Option (List Bool)) (elapsed timeout : Nat) :
    Except BufError (Option Entry × LookupBuffer) :=
  if timeout < elapsed then .ok (none, b) else select b tokens roi

/-- Repeatedly issue the wildcard `select(None, None)`, `n` times. -/
def drain (b : LookupBuffer) : Nat → LookupBuffer
  | 0 => b
  | n + 1 =>
      match select b none none with
      | .error _ => b
      | .ok (_, b1) => drain b1 n

/-- The model input seen by the connector: the request's token IDs and the
mask of positions the forward pass must still compute (initially all). -/
structure ModelInput where
  tokens : List Token
  computeMask : List Bool
deriving Repr, DecidableEq

/-- Does the retrieved entry (if any) cover position `i`? -/
def covers (found : Option Entry) (i : Nat) : Bool :=
  match found with
  | none => false
  | some e => e.roi.getD i false

/-- Did the select produce an entry covering all `n` requested positions? -/
def fullCover (found : Option Entry) (n : Nat) : Bool :=
  found.isSome && (List.range n).all (fun i => covers found i)

/-- The mask of requested positions NOT covered by the retrieved entry:
exactly those the fallback forward pass must compute. -/
def uncoveredMask (found : Option Entry) (n : Nat) : List Bool :=
  (List.range n).map (fun i => !(covers found i))

/-- Modelled from the spec: the payload parts are shape-consistent with
`tokens` restricted to `roi` (same sequence-length dimension). -/
def shapeOK (e : Entry) : Bool :=
  e.key.length == e.roi.count true &&
  e.value.length == e.roi.count true &&
  e.hidden.length == e.roi.count true

/-- Modelled from the spec: `recv_kv_caches_and_hidden_states` derives the
lookup key from the model input, selects, and decides bypass-or-fallback:
a complete hit returns the retrieved hidden state with `bypass = true`; a
partial or missing hit returns `bypass = false` and a model input narrowed
to the uncovered positions; shape-inconsistent retrieved tensors fail
loudly with `ShapeMismatch`.  The implementation is missing from `src/`
(only the abstract declaration). -/
def recvKV (b : LookupBuffer) (mi : ModelInput) :
    Except BufError (Option KVTensor × Bool × ModelInput × LookupBuffer) :=
  match select b (some mi.tokens) (some (List.replicate mi.tokens.length true)) with
  | .error err => .error err
  | .ok (found, b1) =>
      match found with
      | none => .ok (none, false, ⟨mi.tokens, uncoveredMask none mi.tokens.length⟩, b1)
      | some e =>
          if shapeOK e then
            if fullCover (some e) mi.tokens.length then
              .ok (some e.hidden, true, mi, b1)
            else
              .ok (none, false,
                ⟨mi.tokens, uncoveredMask (some e) mi.tokens.length⟩, b1)
          else .error .shapeMismatch

end KVSpec

namespace KVBase

/-- An opaque Python-level object (model executable, model input, config);
the base-class methods never inspect their arguments. -/
structure PyObject where
  oid : Nat
deriving Repr, DecidableEq

/-- The exception the abstract base class raises from every method body
(`raise NotImplementedError` in the source). -/
inductive PyError where
  | notImplementedError
deriving Repr, DecidableEq

/-- `KVConnectorBase.__init__` as written in the source: its body is
`raise NotImplementedError`. -/
def KVConnectorBase.init (_rank _local_rank : Nat) (_config : PyObject) :
    Except PyError PyObject :=
  .error .notImplementedError

/-- `KVConnectorBase.insert` as written in the source: its body is
`raise NotImplementedError`. -/
def KVConnectorBase.insert (_self : PyObject)
    (_input_tokens _roi _key _value _hidden : KVSpec.KVTensor) :
    Except PyError Unit :=
  .error .notImplementedError

/-- `KVConnectorBase.select` as written in the source: its body is
`raise NotImplementedError`. -/
def KVConnectorBase.select (_self : PyObject)
    (_input_tokens : Option KVSpec.KVTensor) (_roi : Option KVSpec.KVTensor) :
    Except PyError (List (Option KVSpec.KVTensor)) :=
  .error .notImplementedError

/-- `KVConnectorBase.close` as written in the source: its body is
`raise NotImplementedError`. -/
def KVConnectorBase.close (_self : PyObject) : Except PyError Unit :=
  .error .notImplementedError

/-- `KVConnectorBase.send_kv_caches_and_hidden_states` as written in the
source: its body is `raise NotImplementedError`. -/
def KVConnectorBase.send_kv_caches_and_hidden_states (_self : PyObject)
    (_model_executable _model_input : PyObject)
    (_kv_caches : List KVSpec.KVTensor)
    (_hidden_or_intermediate_states : PyObject) :
    Except PyError Unit :=
  .error .notImplementedError

/-- `KVConnectorBase.recv_kv_caches_and_hidden_states` as written in the
source: its body is `raise NotImplementedError`. -/
def KVConnectorBase.recv_kv_caches_and_hidden_states (_self : PyObject)
    (_model_executable _model_input : PyObject)
    (_kv_caches : List KVSpec.KVTensor) :
    Except PyError (PyObject × Bool × PyObject) :=
  .error .notImplementedError

end KVBase

namespace KVSpec

/-! ### Helper lemmas about matching and lookup -/

theorem matchTokens_same (t : List Token) (r1 r2 : List Bool) :
    matchTokens t r1 t r2 = true := by
  induction t generalizing r1 r2 with
  | nil => cases r1 <;> cases r2 <;> simp [matchTokens]
  | cons a ts ih =>
    cases r1 with
    | nil => simp [matchTokens]
    | cons b rs1 =>
      cases r2 with
      | nil => simp [matchTokens]
      | cons c rs2 => simp [matchTokens, ih]

theorem findMatch_nil (t : List Token) (r : List Bool) :
    findMatch t r [] = (none, []) := rfl

theorem findMatch_cons_pos (t : List Token) (r : List Bool) (a : Entry)
    (l : List Entry) (h : matchTokens t r a.tokens a.roi = true) :
    findMatch t r (a :: l) = (some a, l) := by
  simp [findMatch, h]

theorem findMatch_cons_neg (t : List Token) (r : List Bool) (a : Entry)
    (l : List Entry) (h : matchTokens t r a.tokens a.roi = false) :
    findMatch t r (a :: l) =
      ((findMatch t r l).1, a :: (findMatch t r l).2) := by
  simp [findMatch, h]

theorem findMatch_of_nomatch (t : List Token) (r : List Bool) :
    ∀ (l : List Entry),
      (∀ e ∈ l, matchTokens t r e.tokens e.roi = false) →
      findMatch t r l = (none, l) := by
  intro l
  induction l with
  | nil => intro _; rfl
  | cons a l ih =>
    intro h
    rw [findMatch_cons_neg t r a l (h a (by simp)),
        ih (fun e he => h e (by simp [he]))]

theorem findMatch_fst_some_match (t : List Token) (r : List Bool) :
    ∀ (l : List Entry) (e : Entry),
      (findMatch t r l).1 = some e →
      matchTokens t r e.tokens e.roi = true := by
  intro l
  induction l with
  | nil => intro e h; simp [findMatch_nil] at h
  | cons a l ih =>
    intro e h
    by_cases hm : matchTokens t r a.tokens a.roi = true
    · rw [findMatch_cons_pos t r a l hm] at h
      cases h
      exact hm
    · rw [findMatch_cons_neg t r a l (by simpa using hm)] at h
      exact ih e h

/-! ### C1 -/

/-- C1: inserting `(tokens, roi, key, value, hidden)` into a fresh buffer and
then selecting with the identical `(tokens, roi)` returns exactly the
inserted value parts; a second select with the same key on the resulting
buffer returns absent (the matching select removed the entry, so the stored
entry is consumed at most once). -/
theorem c1_insert_select_roundtrip (tokens : List Token) (roi : List Bool)
    (key value hidden : KVTensor) :
    ∃ b1 b2 : LookupBuffer,
      insert LookupBuffer.empty tokens roi key value hidden = .ok b1 ∧
      select b1 (some tokens) (some roi) =
        .ok (some ⟨tokens, roi, key, value, hidden⟩, b2) ∧
      select b2 (some tokens) (some roi) = .ok (none, b2) := by
  refine ⟨⟨[⟨tokens, roi, key, value, hidden⟩], false⟩, ⟨[], false⟩, rfl, ?_, ?_⟩
  · simp [select, findMatch, matchTokens_same]
  · simp [select, findMatch]

/-! ### C2 -/

/-- C2: the matching predicate used by `select` holds exactly when the token
identifiers are equal at every position where both roi masks are true
(equality restricted to the intersection of the true positions of the two
masks); and any entry returned by a keyed `select` satisfies it. -/
theorem c2_select_match_characterization :
    (∀ (t1 : List Token) (r1 : List Bool) (t2 : List Token) (r2 : List Bool),
      matchTokens t1 r1 t2 r2 = true ↔
        ∀ i, i < t1.length → i < r1.length → i < t2.length → i < r2.length →
          r1.getD i false = true → r2.getD i false = true →
          t1.getD i 0 = t2.getD i 0) ∧
    (∀ (b : LookupBuffer) (t : List Token) (r : List Bool) (e : Entry)
        (b1 : LookupBuffer),
      select b (some t) (some r) = .ok (some e, b1) →
      matchTokens t r e.tokens e.roi = true) := by
  constructor
  · intro t1
    induction t1 with
    | nil =>
      intro r1 t2 r2
      simp [matchTokens]
    | cons a ts1 ih =>
      intro r1 t2 r2
      cases r1 with
      | nil => simp [matchTokens]
      | cons b rs1 =>
        cases t2 with
        | nil => simp [matchTokens]
        | cons c ts2 =>
          cases r2 with
          | nil => simp [matchTokens]
          | cons d rs2 =>
            rw [show matchTokens (a :: ts1) (b :: rs1) (c :: ts2) (d :: rs2) =
                ((!(b && d) || (a == c)) && matchTokens ts1 rs1 ts2 rs2) from rfl,
              Bool.and_eq_true]
            constructor
            · intro h i hi1 hi2 hi3 hi4 hr1 hr2
              simp only [List.length_cons] at hi1 hi2 hi3 hi4
              match i with
              | 0 =>
                simp only [List.getD_cons_zero] at hr1 hr2 ⊢
                have h1 := h.1
                rw [hr1, hr2] at h1
                simpa using h1
              | i + 1 =>
                simp only [List.getD_cons_succ] at hr1 hr2 ⊢
                exact (ih rs1 ts2 rs2).mp h.2 i (by omega) (by omega) (by omega)
                  (by omega) hr1 hr2
            · intro h
              constructor
              · by_cases hbd : b = true ∧ d = true
                · obtain ⟨hb, hd⟩ := hbd
                  have h0 := h 0 (by simp) (by simp) (by simp) (by simp)
                    (by simp [hb]) (by simp [hd])
                  simp only [List.getD_cons_zero] at h0
                  simp [h0]
                · have hf : (b && d) = false := by
                    cases b <;> cases d <;> simp_all
                  simp [hf]
              · refine (ih rs1 ts2 rs2).mpr (fun i h1 h2 h3 h4 hr1 hr2 => ?_)
                have := h (i + 1) (by simp [Nat.succ_lt_succ h1])
                  (by simp [Nat.succ_lt_succ h2]) (by simp [Nat.succ_lt_succ h3])
                  (by simp [Nat.succ_lt_succ h4])
                  (by simpa using hr1) (by simpa using hr2)
                simpa using this
  · intro b t r e b1 h
    by_cases hc : b.closed
    · simp [select, hc] at h
    · simp [select, hc] at h
      exact findMatch_fst_some_match t r b.entries e h.1

/-- Concrete instance of C2: evaluating the matching predicate and the
select path on explicit keys. -/
theorem c2_witness :
    matchTokens [3, 4] [true, false] [3, 9] [true, true] = true ∧
    matchTokens [7, 8] [true, true] [7, 8] [true, true] = true :=
  ⟨(c2_select_match_characterization.1 [3, 4] [true, false] [3, 9]
      [true, true]).mpr
     (by intro i hi1 hi2 hi3 hi4 hr1 hr2; simp only [List.length_cons, List.length_nil] at hi1; interval_cases i <;> simp_all),
   c2_select_match_characterization.2
     ⟨[⟨[7, 8], [true, true], [1, 2], [3, 4], [5, 6]⟩], false⟩
     [7, 8] [true, true] ⟨[7, 8], [true, true], [1, 2], [3, 4], [5, 6]⟩
     ⟨[], false⟩ rfl⟩

end KVSpec

namespace KVSpec

/-! ### Helper lemmas about the connector decision -/

theorem getD_replicate_false (m i : Nat) :
    (List.replicate m false).getD i false = false := by
  by_cases h : i < m
  · rw [List.getD_eq_getElem _ _ (by simpa using h)]
    simp
  · rw [List.getD_eq_default _ _ (by simp; omega)]

theorem recvKV_fallback (b : LookupBuffer) (mi : ModelInput)
    (found : Option Entry) (b1 : LookupBuffer)
    (hsel : select b (some mi.tokens)
      (some (List.replicate mi.tokens.length true)) = .ok (found, b1))
    (hshape : ∀ e, found = some e → shapeOK e = true)
    (hfull : fullCover found mi.tokens.length = false) :
    recvKV b mi =
      .ok (none, false, ⟨mi.tokens, uncoveredMask found mi.tokens.length⟩, b1) := by
  unfold recvKV
  rw [hsel]
  cases found with
  | none => simp
  | some e => simp [hshape e rfl, hfull]

/-! ### C3 -/

/-- C3: whenever `recv_kv_caches_and_hidden_states` obtains a complete cache
hit — the selected entry covers all positions requested by the model input
and its shapes are consistent — it returns the retrieved hidden state
together with `bypass = true`, so the executor skips the forward pass. -/
theorem c3_complete_hit_bypasses (b : LookupBuffer) (mi : ModelInput)
    (e : Entry) (b1 : LookupBuffer)
    (hsel : select b (some mi.tokens)
      (some (List.replicate mi.tokens.length true)) = .ok (some e, b1))
    (hshape : shapeOK e = true)
    (hfull : fullCover (some e) mi.tokens.length = true) :
    recvKV b mi = .ok (some e.hidden, true, mi, b1) := by
  unfold recvKV
  rw [hsel]
  simp [hshape, hfull]

/-- Concrete instance of C3: a full-coverage entry is returned with
`bypass = true` and the stored hidden state. -/
theorem c3_witness :
    recvKV
        ⟨[⟨[7, 8, 9], [true, true, true], [1, 2, 3], [4, 5, 6], [7, 8, 9]⟩],
          false⟩
        ⟨[7, 8, 9], [true, true, true]⟩ =
      .ok (some [7, 8, 9], true, ⟨[7, 8, 9], [true, true, true]⟩,
        ⟨[], false⟩) :=
  c3_complete_hit_bypasses _ _
    ⟨[7, 8, 9], [true, true, true], [1, 2, 3], [4, 5, 6], [7, 8, 9]⟩ _
    rfl rfl rfl

/-! ### C4 -/

/-- C4: whenever the select produces only a partial hit or no hit, the
connector returns `bypass = false` together with a model input whose compute
mask is exactly the requested positions not covered by the retrieved entry;
in particular, inserting with an roi covering only `[0,k)` and then
requesting all `n > k` positions flags exactly `[k,n)` for local
computation and is never reported as a complete hit. -/
theorem c4_partial_or_miss_falls_back :
    (∀ (b : LookupBuffer) (mi : ModelInput) (found : Option Entry)
        (b1 : LookupBuffer),
      select b (some mi.tokens)
          (some (List.replicate mi.tokens.length true)) = .ok (found, b1) →
      (∀ e, found = some e → shapeOK e = true) →
      fullCover found mi.tokens.length = false →
      recvKV b mi =
        .ok (none, false,
          ⟨mi.tokens, uncoveredMask found mi.tokens.length⟩, b1)) ∧
    (∀ (found : Option Entry) (n i : Nat), i < n →
      (uncoveredMask found n).getD i false = !(covers found i)) ∧
    (∀ (tokens : List Token) (k : Nat) (key value hidden : KVTensor)
        (b1 : LookupBuffer),
      k < tokens.length →
      key.length = k → value.length = k → hidden.length = k →
      insert LookupBuffer.empty tokens
          (List.replicate k true ++ List.replicate (tokens.length - k) false)
          key value hidden = .ok b1 →
      recvKV b1 ⟨tokens, List.replicate tokens.length true⟩ =
        .ok (none, false,
          ⟨tokens, (List.range tokens.length).map (fun i => decide (k ≤ i))⟩,
          LookupBuffer.empty)) := by
  refine ⟨recvKV_fallback, fun found n i h => ?_, ?_⟩
  · unfold uncoveredMask
    rw [List.getD_eq_getElem _ _ (by simpa using h)]
    simp
  · intro tokens k key value hidden b1 hk hkey hval hhid hins
    obtain rfl : b1 =
        ⟨[⟨tokens, List.replicate k true ++
            List.replicate (tokens.length - k) false, key, value, hidden⟩],
          false⟩ :=
      (Except.ok.inj hins).symm
    have hsel : select
        ⟨[⟨tokens, List.replicate k true ++
            List.replicate (tokens.length - k) false, key, value, hidden⟩],
          false⟩
        (some tokens) (some (List.replicate tokens.length true)) =
        .ok (some ⟨tokens, List.replicate k true ++
            List.replicate (tokens.length - k) false, key, value, hidden⟩,
          ⟨[], false⟩) := by
      simp [select, findMatch, matchTokens_same]
    have hshape : shapeOK
        ⟨tokens, List.replicate k true ++
          List.replicate (tokens.length - k) false, key, value, hidden⟩ =
        true := by
      simp [shapeOK, List.count_append, List.count_replicate, hkey, hval, hhid]
    have hfull : fullCover
        (some ⟨tokens, List.replicate k true ++
          List.replicate (tokens.length - k) false, key, value, hidden⟩)
        tokens.length = false := by
      rw [fullCover]
      simp only [Option.isSome_some, Bool.true_and]
      rw [List.all_eq_false]
      refine ⟨k, by simpa using hk, ?_⟩
      simp only [covers]
      rw [List.getD_append_right _ _ _ _ (by simp)]
      simp [getD_replicate_false]
    have hres : recvKV
        ⟨[⟨tokens, List.replicate k true ++
            List.replicate (tokens.length - k) false, key, value, hidden⟩],
          false⟩
        ⟨tokens, List.replicate tokens.length true⟩ =
        .ok (none, false,
          ⟨tokens, uncoveredMask
            (some ⟨tokens, List.replicate k true ++
              List.replicate (tokens.length - k) false, key, value, hidden⟩)
            tokens.length⟩,
          ⟨[], false⟩) :=
      recvKV_fallback _ ⟨tokens, List.replicate tokens.length true⟩
        _ _ hsel (fun e he => by cases he; exact hshape) hfull
    rw [hres]
    have hmask : uncoveredMask
        (some ⟨tokens, List.replicate k true ++
          List.replicate (tokens.length - k) false, key, value, hidden⟩)
        tokens.length =
        (List.range tokens.length).map (fun i => decide (k ≤ i)) := by
      unfold uncoveredMask
      refine List.map_congr_left (fun i hi => ?_)
      by_cases hik : i < k
      · simp only [covers]
        rw [List.getD_append _ _ _ _ (by simpa using hik),
          List.getD_eq_getElem _ _ (by simpa using hik)]
        simp [Nat.not_le.mpr hik]
      · simp only [covers]
        rw [List.getD_append_right _ _ _ _ (by simp; omega)]
        simp [getD_replicate_false, Nat.le_of_not_lt hik]
    rw [hmask]
    rfl

/-- Concrete instance of C4: a partial hit (roi `[true, true, false]`
against a three-position request) yields `bypass = false`, an adjusted
compute mask flagging exactly the uncovered position, and never a complete
hit. -/
theorem c4_witness :
    (recvKV ⟨[⟨[7, 8, 9], [true, true, false], [1, 2], [3, 4], [5, 6]⟩],
        false⟩ ⟨[7, 8, 9], [true, true, true]⟩ =
      .ok (none, false,
        ⟨[7, 8, 9], uncoveredMask
          (some ⟨[7, 8, 9], [true, true, false], [1, 2], [3, 4], [5, 6]⟩) 3⟩,
        ⟨[], false⟩)) ∧
    ((uncoveredMask
        (some ⟨[7, 8, 9], [true, true, false], [1, 2], [3, 4], [5, 6]⟩)
        3).getD 2 false =
      !(covers
        (some ⟨[7, 8, 9], [true, true, false], [1, 2], [3, 4], [5, 6]⟩) 2)) ∧
    (recvKV ⟨[⟨[7, 8, 9], [true, true, false], [1, 2], [3, 4], [5, 6]⟩],
        false⟩ ⟨[7, 8, 9], List.replicate 3 true⟩ =
      .ok (none, false,
        ⟨[7, 8, 9], (List.range 3).map (fun i => decide (2 ≤ i))⟩,
        LookupBuffer.empty)) :=
  ⟨c4_partial_or_miss_falls_back.1
      ⟨[⟨[7, 8, 9], [true, true, false], [1, 2], [3, 4], [5, 6]⟩], false⟩
      ⟨[7, 8, 9], [true, true, true]⟩
      (some ⟨[7, 8, 9], [true, true, false], [1, 2], [3, 4], [5, 6]⟩)
      ⟨[], false⟩ rfl (fun _ he => by cases he; rfl) rfl,
   c4_partial_or_miss_falls_back.2.1
     (some ⟨[7, 8, 9], [true, true, false], [1, 2], [3, 4], [5, 6]⟩)
     3 2 (by decide),
   c4_partial_or_miss_falls_back.2.2 [7, 8, 9] 2 [1, 2] [3, 4] [5, 6]
     ⟨[⟨[7, 8, 9], [true, true, false], [1, 2], [3, 4], [5, 6]⟩], false⟩
     (by decide) rfl rfl rfl rfl⟩

end KVSpec

namespace KVSpec

/-! ### Drain lemma -/

theorem drain_open_entries : ∀ (l : List Entry),
    drain ⟨l, false⟩ l.length = ⟨[], false⟩ := by
  intro l
  induction l with
  | nil => rfl
  | cons e rest ih =>
    show drain ⟨e :: rest, false⟩ (rest.length + 1) = ⟨[], false⟩
    simp only [drain, select]
    exact ih

/-! ### C5 -/

/-- C5: the wildcard `select(None, None)` on an open non-empty buffer removes
and returns exactly one entry (the entry count drops by one); on an empty
buffer it returns absent without faulting; iterating it as many times as
there are entries drains the buffer, after which every further wildcard
select returns absent. -/
theorem c5_wildcard_drain :
    (∀ (b : LookupBuffer) (e : Entry) (rest : List Entry),
      b.closed = false → b.entries = e :: rest →
      select b none none = .ok (some e, ⟨rest, false⟩) ∧
      rest.length + 1 = b.entries.length) ∧
    (∀ b : LookupBuffer, b.closed = false → b.entries = [] →
      select b none none = .ok (none, b)) ∧
    (∀ b : LookupBuffer, b.closed = false →
      (drain b b.entries.length).entries = [] ∧
      select (drain b b.entries.length) none none =
        .ok (none, drain b b.entries.length)) := by
  refine ⟨?_, ?_, ?_⟩
  · intro b e rest hc he
    obtain ⟨entries, closed⟩ := b
    subst hc
    simp only at he
    subst he
    exact ⟨by simp [select], by simp⟩
  · intro b hc he
    obtain ⟨entries, closed⟩ := b
    subst hc
    simp only at he
    subst he
    simp [select]
  · intro b hc
    obtain ⟨entries, closed⟩ := b
    subst hc
    have hd := drain_open_entries entries
    constructor
    · show (drain ⟨entries, false⟩ entries.length).entries = []
      rw [hd]
    · show select (drain ⟨entries, false⟩ entries.length) none none =
        .ok (none, drain ⟨entries, false⟩ entries.length)
      rw [hd]
      simp [select]

/-- Concrete instance of C5: draining a two-entry buffer. -/
theorem c5_witness :
    (select ⟨[⟨[1], [true], [1], [1], [1]⟩, ⟨[2], [true], [2], [2], [2]⟩],
        false⟩ none none =
      .ok (some ⟨[1], [true], [1], [1], [1]⟩,
        ⟨[⟨[2], [true], [2], [2], [2]⟩], false⟩) ∧
      1 + 1 = 2) ∧
    (select ⟨[], false⟩ none none = .ok (none, ⟨[], false⟩)) ∧
    ((drain ⟨[⟨[1], [true], [1], [1], [1]⟩, ⟨[2], [true], [2], [2], [2]⟩],
        false⟩ 2).entries = [] ∧
      select (drain ⟨[⟨[1], [true], [1], [1], [1]⟩,
          ⟨[2], [true], [2], [2], [2]⟩], false⟩ 2) none none =
        .ok (none, drain ⟨[⟨[1], [true], [1], [1], [1]⟩,
          ⟨[2], [true], [2], [2], [2]⟩], false⟩ 2)) :=
  ⟨c5_wildcard_drain.1
      ⟨[⟨[1], [true], [1], [1], [1]⟩, ⟨[2], [true], [2], [2], [2]⟩], false⟩
      ⟨[1], [true], [1], [1], [1]⟩ [⟨[2], [true], [2], [2], [2]⟩] rfl rfl,
   c5_wildcard_drain.2.1 ⟨[], false⟩ rfl rfl,
   c5_wildcard_drain.2.2
     ⟨[⟨[1], [true], [1], [1], [1]⟩, ⟨[2], [true], [2], [2], [2]⟩], false⟩
     rfl⟩

/-! ### C6 -/

/-- C6: `close` is idempotent (a second `close` leaves the buffer exactly as
the first did, so repeated calls never fault), and after `close` every
`insert` and every `select` fails with the distinguished `BufferClosed`
error rather than silently succeeding. -/
theorem c6_close_idempotent_then_closed (b : LookupBuffer)
    (tokens : List Token) (roi : List Bool) (key value hidden : KVTensor)
    (qt : Option (List Token)) (qr : Option (List Bool)) :
    close (close b) = close b ∧
    insert (close b) tokens roi key value hidden = .error .bufferClosed ∧
    select (close b) qt qr = .error .bufferClosed := by
  refine ⟨rfl, ?_, ?_⟩ <;> simp [close, insert, select]

/-! ### C7 -/

/-- C7: a `select` on an empty buffer, or with a key matching no stored
entry, returns the all-absent result with no error; and a transport-backed
select whose round-trip exceeds the caller-supplied timeout returns the
no-match result instead of blocking. -/
theorem c7_no_match_absent :
    (∀ (t : List Token) (r : List Bool),
      select LookupBuffer.empty (some t) (some r) =
        .ok (none, LookupBuffer.empty)) ∧
    (∀ (b : LookupBuffer) (t : List Token) (r : List Bool),
      b.closed = false →
      (∀ e ∈ b.entries, matchTokens t r e.tokens e.roi = false) →
      select b (some t) (some r) = .ok (none, b)) ∧
    (∀ (b : LookupBuffer) (qt : Option (List Token))
        (qr : Option (List Bool)) (elapsed timeout : Nat),
      timeout < elapsed →
      timedSelect b qt qr elapsed timeout = .ok (none, b)) := by
  refine ⟨?_, ?_, ?_⟩
  · intro t r
    simp [select, LookupBuffer.empty, findMatch]
  · intro b t r hc hnm
    obtain ⟨entries, closed⟩ := b
    subst hc
    have hf := findMatch_of_nomatch t r entries hnm
    simp [select, hf]
  · intro b qt qr elapsed timeout h
    simp [timedSelect, h]

/-- Concrete instance of C7: empty-buffer miss, keyed miss, and a timed-out
remote select, all returning the absent result. -/
theorem c7_witness :
    (select LookupBuffer.empty (some [1, 2]) (some [true, true]) =
      .ok (none, LookupBuffer.empty)) ∧
    (select ⟨[⟨[5], [true], [1], [1], [1]⟩], false⟩ (some [6]) (some [true]) =
      .ok (none, ⟨[⟨[5], [true], [1], [1], [1]⟩], false⟩)) ∧
    (timedSelect ⟨[⟨[5], [true], [1], [1], [1]⟩], false⟩ (some [5])
        (some [true]) 7 3 =
      .ok (none, ⟨[⟨[5], [true], [1], [1], [1]⟩], false⟩)) :=
  ⟨c7_no_match_absent.1 [1, 2] [true, true],
   c7_no_match_absent.2.1 ⟨[⟨[5], [true], [1], [1], [1]⟩], false⟩ [6] [true]
     rfl (by decide),
   c7_no_match_absent.2.2 ⟨[⟨[5], [true], [1], [1], [1]⟩], false⟩ (some [5])
     (some [true]) 7 3 (by decide)⟩

/-! ### C8 -/

/-- C8: the only hard failures the connector can surface are `BufferClosed`
and `ShapeMismatch` (the error type has no other inhabitant); a closed
buffer surfaces `BufferClosed`; and a cache miss never raises — the
connector degrades to the local-computation fallback with `bypass = false`
and all positions flagged for computation. -/
theorem c8_propagation_policy :
    (∀ err : BufError, err = .bufferClosed ∨ err = .shapeMismatch) ∧
    (∀ (b : LookupBuffer) (mi : ModelInput), b.closed = true →
      recvKV b mi = .error .bufferClosed) ∧
    (∀ (b : LookupBuffer) (mi : ModelInput), b.closed = false →
      (∀ e ∈ b.entries,
        matchTokens mi.tokens (List.replicate mi.tokens.length true)
          e.tokens e.roi = false) →
      recvKV b mi =
        .ok (none, false,
          ⟨mi.tokens, uncoveredMask none mi.tokens.length⟩, b)) := by
  refine ⟨?_, ?_, ?_⟩
  · intro err
    cases err
    · exact Or.inl rfl
    · exact Or.inr rfl
  · intro b mi hc
    have hsel : select b (some mi.tokens)
        (some (List.replicate mi.tokens.length true)) =
        .error .bufferClosed := by
      simp [select, hc]
    unfold recvKV
    rw [hsel]
  · intro b mi hc hnm
    obtain ⟨entries, closed⟩ := b
    subst hc
    have hf := findMatch_of_nomatch mi.tokens
      (List.replicate mi.tokens.length true) entries hnm
    have hsel : select ⟨entries, false⟩ (some mi.tokens)
        (some (List.replicate mi.tokens.length true)) =
        .ok (none, ⟨entries, false⟩) := by
      simp [select, hf]
    exact recvKV_fallback _ mi none _ hsel (fun e he => by cases he) rfl

/-- Concrete instance of C8: a closed buffer fails hard; a miss on an open
buffer falls back without error. -/
theorem c8_witness :
    (BufError.bufferClosed = .bufferClosed ∨
      BufError.bufferClosed = .shapeMismatch) ∧
    (recvKV ⟨[], true⟩ ⟨[1], [true]⟩ = .error .bufferClosed) ∧
    (recvKV ⟨[⟨[5], [true], [1], [1], [1]⟩], false⟩ ⟨[6], [true]⟩ =
      .ok (none, false, ⟨[6], uncoveredMask none 1⟩,
        ⟨[⟨[5], [true], [1], [1], [1]⟩], false⟩)) :=
  ⟨c8_propagation_policy.1 .bufferClosed,
   c8_propagation_policy.2.1 ⟨[], true⟩ ⟨[1], [true]⟩ rfl,
   c8_propagation_policy.2.2 ⟨[⟨[5], [true], [1], [1], [1]⟩], false⟩
     ⟨[6], [true]⟩ rfl (by decide)⟩

end KVSpec

namespace KVBase

/-! ### C10 -/

/-- C10: every operation of the abstract base class `KVConnectorBase`
itself — `__init__`, `insert`, `select`, `close`,
`send_kv_caches_and_hidden_states`, and
`recv_kv_caches_and_hidden_states` — fails with `NotImplementedError` for
every input when invoked without a subclass override; the base class
supplies no default behavior. -/
theorem c10_base_raises_not_implemented :
    (∀ (rank local_rank : Nat) (config : PyObject),
      KVConnectorBase.init rank local_rank config =
        .error .notImplementedError) ∧
    (∀ (self : PyObject) (input_tokens roi key value hidden : KVSpec.KVTensor),
      KVConnectorBase.insert self input_tokens roi key value hidden =
        .error .notImplementedError) ∧
    (∀ (self : PyObject) (input_tokens roi : Option KVSpec.KVTensor),
      KVConnectorBase.select self input_tokens roi =
        .error .notImplementedError) ∧
    (∀ self : PyObject,
      KVConnectorBase.close self = .error .notImplementedError) ∧
    (∀ (self model_executable model_input : PyObject)
        (kv_caches : List KVSpec.KVTensor) (hidden_or_intermediate : PyObject),
      KVConnectorBase.send_kv_caches_and_hidden_states self model_executable
        model_input kv_caches hidden_or_intermediate =
        .error .notImplementedError) ∧
    (∀ (self model_executable model_input : PyObject)
        (kv_caches : List KVSpec.KVTensor),
      KVConnectorBase.recv_kv_caches_and_hidden_states self model_executable
        model_input kv_caches = .error .notImplementedError) :=
  ⟨fun _ _ _ => rfl, fun _ _ _ _ _ _ => rfl, fun _ _ _ => rfl, fun _ => rfl,
   fun _ _ _ _ _ => rfl, fun _ _ _ _ => rfl⟩

end KVBase
